import Mathlib

/-!
Verification of the anchor-race client core (`src/mod.ts`): the newline-framed
packet decoder (`Client.waitForData`, `findDelimiterIndex`), the packet handler
(`Client.handlePacket`), and the outbound send pair issued through
`sendPacket(...).finally(() => sendPacket(...))`.

The embedding models JavaScript values produced by `JSON.parse` as an
inductive `Json` type, JS property access / truthiness / string coercion
explicitly, and the mutable `Client` fields (`id`, `data`, connection state)
as an explicit `ClientState` record.  Byte streams are lists of `Nat`.
-/

/-- A JavaScript value as produced by `JSON.parse`: null, booleans, numbers
(the packets under study only carry integral numbers, so `Int` suffices),
strings, arrays and objects (field lists in insertion order, keys unique). -/
inductive Json where
  | null : Json
  | bool : Bool → Json
  | num : Int → Json
  | str : String → Json
  | arr : List Json → Json
  | obj : List (String × Json) → Json
deriving Repr

mutual

/-- JS `ToString` coercion, as applied when a value is used as an object
property key (`this.data[packetObject.clientId!]`). -/
def jsToString : Json → String
  | .null => "null"
  | .bool true => "true"
  | .bool false => "false"
  | .num n => toString n
  | .str s => s
  | .arr xs => String.intercalate "," (jsToStringElems xs)
  | .obj _ => "[object Object]"

/-- Array elements under JS `Array.prototype.toString`: `null` renders as the
empty string inside a joined array. -/
def jsToStringElems : List Json → List String
  | [] => []
  | .null :: xs => "" :: jsToStringElems xs
  | x :: xs => jsToString x :: jsToStringElems xs

end

/-- First-match association-list lookup: JS object property read (objects have
unique keys, so first match is the match). `none` models `undefined`. -/
def lookupField : List (String × Json) → String → Option Json
  | [], _ => none
  | (k, v) :: rest, key => if k = key then some v else lookupField rest key

/-- JS property assignment `o[k] = v`: overwrite in place when the key exists,
append otherwise (insertion order preserved). -/
def regSet : List (String × Json) → String → Json → List (String × Json)
  | [], k, v => [(k, v)]
  | (k1, v1) :: rest, k, v =>
    if k1 = k then (k, v) :: rest else (k1, v1) :: regSet rest k v

/-- Property read on an arbitrary JS value: objects look the field up,
primitives and arrays have none of the fields used by the handler
(`fileNum`, `seed`), so the read gives `undefined`.  (`null` is handled by
the callers, where the access throws.) -/
def jsGetField : Json → String → Option Json
  | .obj fs, k => lookupField fs k
  | _, _ => none

/-- JS truthiness of a value. -/
def jsTruthy : Json → Bool
  | .null => false
  | .bool b => b
  | .num n => decide (n ≠ 0)
  | .str s => decide (s ≠ "")
  | .arr _ => true
  | .obj _ => true

/-- Truthiness of a property-read result: `undefined` is falsy.  This is the
test `if (!this.data[k])` / `if (this.data[k])` performs. -/
def truthyStored : Option Json → Bool
  | none => false
  | some v => jsTruthy v

/-- The string property key a JS value turns into when used in `o[key]`;
`undefined` (an absent `clientId`) becomes the key `"undefined"`. -/
def jsPropKey : Option Json → String
  | none => "undefined"
  | some v => jsToString v

/-- Field removal performed by the rest-destructuring
`({ clientId, ...data })`: every other own enumerable property, in order. -/
def stripField (fs : List (String × Json)) (k : String) : List (String × Json) :=
  fs.filter (fun kv => kv.1 ≠ k)

/-- The `clientId` extracted by `({ clientId, ...data })` from one entry of
`packetObject.clients`: a property read, `undefined` on non-objects. -/
def entryClientId : Json → Option Json
  | .obj fs => lookupField fs "clientId"
  | _ => none

/-- The rest object built by `({ clientId, ...data })`: for objects, all
fields but `clientId`; for arrays and strings, their enumerable index
properties; for other primitives, the empty object. -/
def entryRest : Json → List (String × Json)
  | .obj fs => stripField fs "clientId"
  | .arr xs => xs.enum.map (fun p => (toString p.1, p.2))
  | .str s => s.data.enum.map (fun p => (toString p.1, Json.str (String.singleton p.2)))
  | _ => []

/-- JS strict comparison `v === n` of a property-read result against a number
literal: true exactly when the value is that number.  `undefined`, `null`,
booleans, strings, arrays and objects are never strictly equal to a number. -/
def strictEqNum (v : Option Json) (n : Int) : Bool :=
  match v with
  | some (.num m) => m == n
  | _ => false

/-- JS strict comparison `v === s` of a property-read result against a string:
true exactly when the value is that string. -/
def strictEqStr (v : Option Json) (s : String) : Bool :=
  match v with
  | some (.str t) => t == s
  | _ => false

/-- The mutable state of a `Client`: `id` (the connection's resource id),
`data` (the participant registry, a JS object keyed by string property keys),
and whether `disconnect()` has been invoked. -/
structure ClientState where
  id : Int
  registry : List (String × Json)
  disconnected : Bool
deriving Repr

/-- An outbound packet built by `handlePacket`: either the corrective
`SERVER_MESSAGE` (with its `message` and `targetClientId` fields) or the
`RESET` (with its `targetClientId`). -/
inductive OutPacket where
  | serverMessage : String → Option Json → OutPacket
  | reset : Option Json → OutPacket
deriving Repr

/-- One `sendPacket` call: the packet is serialized and written; on a write
failure the catch block calls `disconnect()`.  `ok n` is an oracle telling
whether the `n`-th write of the current handler invocation succeeds; the
attempt itself happens either way and is recorded. -/
def sendPacket (ok : Nat → Bool) (n : Nat) (st : ClientState) (p : OutPacket) :
    ClientState × List OutPacket :=
  (if ok n then st else { st with disconnected := true }, [p])

/-- The chained pair `sendPacket(SERVER_MESSAGE).finally(() =>
sendPacket(RESET))`: the reset send is attempted once the message send has
settled, whether it succeeded or failed. -/
def sendPair (ok : Nat → Bool) (st : ClientState) (message : String)
    (target : Option Json) : ClientState × List OutPacket :=
  let r1 := sendPacket ok 0 st (.serverMessage message target)
  let r2 := sendPacket ok 1 r1.1 (.reset target)
  (r2.1, r1.2 ++ r2.2)

/-- The `UPDATE_CLIENT_DATA` branch of `handlePacket`.  `fs` are the fields of
the parsed packet object; the branch reads `clientId` and `data` off it,
tests `!this.data[clientId]` (truthiness of the stored snapshot), possibly
issues the corrective pair, and finally assigns
`this.data[clientId] = packetObject.data`.  When `data` is absent or `null`,
`packetObject.data.fileNum` throws a TypeError before any send, the catch
block logs it, and no state changes. -/
def handleUpdate (seed : String) (ok : Nat → Bool) (st : ClientState)
    (fs : List (String × Json)) : ClientState × List OutPacket :=
  let cid := lookupField fs "clientId"
  let key := jsPropKey cid
  match lookupField fs "data" with
  | none => (st, [])
  | some .null => (st, [])
  | some d =>
    let fileNum := jsGetField d "fileNum"
    let r :=
      if !truthyStored (lookupField st.registry key) then
        if !strictEqNum fileNum 255 then
          sendPair ok st "Can't connect with save loaded, resetting" cid
        else (st, [])
      else
        if !strictEqNum fileNum 255 && !strictEqStr (jsGetField d "seed") seed then
          sendPair ok st "Wrong seed loaded, resetting" cid
        else (st, [])
    ({ r.1 with registry := regSet r.1.registry key d }, r.2)

/-- Whether a JS value is `null` (destructuring `({ clientId, ...data })` on
`null` throws a TypeError). -/
def Json.isNull : Json → Bool
  | .null => true
  | _ => false

/-- The `forEach` body of the `ALL_CLIENT_DATA` branch, entry by entry:
destructure `({ clientId, ...data })` (throws on a `null` entry, aborting the
loop with earlier mutations kept), then overwrite `this.data[clientId]` with
the rest object only when the stored value is truthy. -/
def processClients : List (String × Json) → List Json → List (String × Json)
  | reg, [] => reg
  | reg, e :: rest =>
    if e.isNull then reg
    else
    let key := jsPropKey (entryClientId e)
    let reg1 :=
      if truthyStored (lookupField reg key) then
        regSet reg key (.obj (entryRest e))
      else reg
    processClients reg1 rest

/-- The `ALL_CLIENT_DATA` branch: `packetObject.clients.forEach(...)`.  When
`clients` is absent or not an array, `.forEach` throws a TypeError which the
catch block swallows, leaving the state unchanged. -/
def handleAll (st : ClientState) (fs : List (String × Json)) :
    ClientState × List OutPacket :=
  match lookupField fs "clients" with
  | some (.arr entries) =>
    ({ st with registry := processClients st.registry entries }, [])
  | _ => (st, [])

/-- `Client.handlePacket` after `TextDecoder.decode`: `parsed` is the result
of `JSON.parse` (`none` when parsing threw, caught by the handler's
try/catch).  A parsed `null` throws at the `packetObject.quiet` access
(caught); other non-objects have no `type` property, so the switch matches
nothing; objects dispatch on the `type` discriminant, with only
`UPDATE_CLIENT_DATA` and `ALL_CLIENT_DATA` carrying behaviour. -/
def handlePacket (seed : String) (ok : Nat → Bool) (st : ClientState)
    (parsed : Option Json) : ClientState × List OutPacket :=
  match parsed with
  | none => (st, [])
  | some .null => (st, [])
  | some (.obj fs) =>
    match lookupField fs "type" with
    | some (.str "UPDATE_CLIENT_DATA") => handleUpdate seed ok st fs
    | some (.str "ALL_CLIENT_DATA") => handleAll st fs
    | _ => (st, [])
  | some _ => (st, [])

/-! ## Frame decoder (`Client.waitForData`, `findDelimiterIndex`,
`concatUint8Arrays`) -/

/-- `findDelimiterIndex`: index of the first byte equal to `10` (line feed),
or `-1` when there is none. -/
def findDelimiterIndex : List Nat → Int
  | [] => -1
  | b :: rest =>
    if b = 10 then 0
    else if findDelimiterIndex rest = -1 then -1 else findDelimiterIndex rest + 1

/-- `concatUint8Arrays`: concatenation of two byte buffers. -/
def concatUint8Arrays (a b : List Nat) : List Nat := a ++ b

/-- The inner packet-extraction loop of `waitForData`: repeatedly locate the
delimiter; yield `data.subarray(0, delimiterIndex + 1)` — the slice up to and
including the delimiter byte — and continue on
`data.subarray(delimiterIndex + 1)`; stop when no delimiter remains, keeping
the remainder as the new buffer. -/
def extractPackets (data : List Nat) : List (List Nat) × List Nat :=
  match h : findDelimiterIndex data with
  | .negSucc _ => ([], data)
  | .ofNat i =>
    let r := extractPackets (data.drop (i + 1))
    (data.take (i + 1) :: r.1, r.2)
termination_by data.length
decreasing_by
  have hne : data ≠ [] := by
    intro hc
    rw [hc] at h
    simp [findDelimiterIndex] at h
  have hpos : 0 < data.length := List.length_pos.mpr hne
  simp only [List.length_drop]
  omega

/-- One iteration of the outer read loop of `waitForData`: the received chunk
is appended to the pending buffer (`concatUint8Arrays`) and the inner loop
extracts every complete frame, leaving the remainder buffered. -/
def feed (buf chunk : List Nat) : List (List Nat) × List Nat :=
  extractPackets (concatUint8Arrays buf chunk)

/-- A run of the read loop over a sequence of received chunks, collecting all
yielded frames in order and the final pending buffer. -/
def feedAll (buf : List Nat) : List (List Nat) → List (List Nat) × List Nat
  | [] => ([], buf)
  | c :: cs =>
    let r1 := feed buf c
    let r2 := feedAll r1.2 cs
    (r1.1 ++ r2.1, r2.2)

/-- A byte sequence contains no delimiter byte. -/
def delimFree (xs : List Nat) : Bool := xs.all (fun b => b ≠ 10)

/-- The wire image of a payload sequence: each payload followed by exactly one
delimiter byte. -/
def wireOf (Ps : List (List Nat)) : List Nat :=
  (Ps.map (fun p => p ++ [10])).join

/-- Shape of every frame the inner loop yields: a delimiter-free body followed
by the delimiter byte it was cut at. -/
def packetShape (p : List Nat) : Bool :=
  decide (p.getLast? = some 10) && delimFree p.dropLast

/-- The `type` strings of the `Packet` union's variants. -/
def recognizedTypes : List String :=
  ["UPDATE_CLIENT_DATA", "RESET", "ALL_CLIENT_DATA", "SERVER_MESSAGE",
   "DISABLE_ANCHOR", "REQUEST_SAVE_STATE", "PUSH_SAVE_STATE"]

/-- Whether a parsed payload is an object whose `type` discriminant names one
of the `Packet` union's variants. -/
def hasRecognizedType : Json → Bool
  | .obj fs =>
    match lookupField fs "type" with
    | some (.str t) => recognizedTypes.contains t
    | _ => false
  | _ => false

theorem findDelimiterIndex_cons_of_ne (b : Nat) (xs : List Nat) (hb : ¬ b = 10)
    (hne : ¬ findDelimiterIndex xs = -1) :
    findDelimiterIndex (b :: xs) = findDelimiterIndex xs + 1 := by
  simp [findDelimiterIndex, hb, hne]

theorem findDelimiterIndex_cons_of_neg (b : Nat) (xs : List Nat) (hb : ¬ b = 10)
    (hneg : findDelimiterIndex xs = -1) :
    findDelimiterIndex (b :: xs) = -1 := by
  simp [findDelimiterIndex, hb, hneg]

/-- `findDelimiterIndex` returns `-1` or a nonnegative index. -/
theorem findDelimiterIndex_nonneg_or (xs : List Nat) :
    findDelimiterIndex xs = -1 ∨ 0 ≤ findDelimiterIndex xs := by
  induction xs with
  | nil => exact Or.inl rfl
  | cons b tail ih =>
    by_cases hb : b = 10
    · right; simp [findDelimiterIndex, hb]
    · by_cases hneg : findDelimiterIndex tail = -1
      · left; simp [findDelimiterIndex, hb, hneg]
      · right
        have h0 : 0 ≤ findDelimiterIndex tail := ih.resolve_left hneg
        simp only [findDelimiterIndex, hb, if_false, hneg]
        omega

/-- `10 ∉ xs` exactly when the scan reports no delimiter. -/
theorem findDelimiterIndex_eq_neg_iff (xs : List Nat) :
    findDelimiterIndex xs = -1 ↔ 10 ∉ xs := by
  induction xs with
  | nil => simp [findDelimiterIndex]
  | cons b tail ih =>
    by_cases hb : b = 10
    · subst hb
      simp [findDelimiterIndex]
    · by_cases hneg : findDelimiterIndex tail = -1
      · have h1 : 10 ∉ tail := ih.mp hneg
        have hL : findDelimiterIndex (b :: tail) = -1 := by
          simp [findDelimiterIndex, hb, hneg]
        constructor
        · intro _ hmem
          rcases List.mem_cons.mp hmem with hc | hc
          · exact hb hc.symm
          · exact h1 hc
        · intro _
          exact hL
      · have h2 : 10 ∈ tail := by
          by_contra hnot
          exact hneg (ih.mpr hnot)
        constructor
        · intro h0
          exfalso
          have h3 : 0 ≤ findDelimiterIndex tail :=
            (findDelimiterIndex_nonneg_or tail).resolve_left hneg
          have hL : findDelimiterIndex (b :: tail) = findDelimiterIndex tail + 1 := by
            simp [findDelimiterIndex, hb, hneg]
          rw [hL] at h0
          omega
        · intro hnot
          exact ((hnot (List.mem_cons_of_mem b h2)).elim)

/-- With a delimiter-free prefix before an explicit delimiter, the scan finds
exactly that prefix's length. -/
theorem findDelimiterIndex_append (p rest : List Nat) (hp : 10 ∉ p) :
    findDelimiterIndex (p ++ 10 :: rest) = (p.length : Int) := by
  induction p with
  | nil => simp [findDelimiterIndex]
  | cons b tail ih =>
    have hb : ¬(b = 10) := fun hc => hp (by simp [hc])
    have htail : 10 ∉ tail := fun hc => hp (List.mem_cons_of_mem b hc)
    have hr := ih htail
    have hne : ¬(findDelimiterIndex (tail ++ 10 :: rest) = -1) := by
      rw [hr]; omega
    rw [List.cons_append, findDelimiterIndex_cons_of_ne b _ hb hne, hr,
      List.length_cons]
    omega

/-- A nonnegative result decomposes the buffer: a delimiter-free prefix of
length `i`, the delimiter, and the tail. -/
theorem findDelimiterIndex_decomp (xs : List Nat) (i : Nat)
    (h : findDelimiterIndex xs = (i : Int)) :
    ∃ p rest, xs = p ++ 10 :: rest ∧ 10 ∉ p ∧ p.length = i := by
  induction xs generalizing i with
  | nil =>
    exfalso
    have h1 : (-1 : Int) = (i : Int) := h
    omega
  | cons b tail ih =>
    by_cases hb : b = 10
    · subst hb
      have h0 : (0 : Int) = (i : Int) := by
        have : findDelimiterIndex (10 :: tail) = 0 := by simp [findDelimiterIndex]
        rw [this] at h
        exact h
      have hi : i = 0 := by omega
      exact ⟨[], tail, rfl, by simp, by simp [hi]⟩
    · by_cases hneg : findDelimiterIndex tail = -1
      · exfalso
        have hL : findDelimiterIndex (b :: tail) = -1 := by
          simp [findDelimiterIndex, hb, hneg]
        rw [hL] at h
        omega
      · have hstep : findDelimiterIndex (b :: tail) = findDelimiterIndex tail + 1 := by
          simp [findDelimiterIndex, hb, hneg]
        rw [hstep] at h
        have h0 : 0 ≤ findDelimiterIndex tail :=
          (findDelimiterIndex_nonneg_or tail).resolve_left hneg
        have hipos : 1 ≤ i := by omega
        have hj : findDelimiterIndex tail = ((i - 1 : Nat) : Int) := by omega
        obtain ⟨p, rest, hp, hfree, hlen⟩ := ih (i - 1) hj
        refine ⟨b :: p, rest, by simp [hp], ?_, ?_⟩
        · intro hmem
          rcases List.mem_cons.mp hmem with hc | hc
          · exact hb hc.symm
          · exact hfree hc
        · simp only [List.length_cons, hlen]
          omega

/-- On a delimiter-free buffer the loop yields nothing and buffers it all. -/
theorem extractPackets_of_free (data : List Nat) (h : 10 ∉ data) :
    extractPackets data = ([], data) := by
  have hneg : findDelimiterIndex data = -1 := (findDelimiterIndex_eq_neg_iff data).mpr h
  rw [extractPackets.eq_def]
  split
  · rfl
  · next i heq =>
    exfalso
    rw [hneg] at heq
    have h2 : Int.ofNat i = (i : Int) := rfl
    rw [h2] at heq
    omega

/-- One complete frame at the head of the buffer: the loop yields the frame
including its delimiter and continues on the rest. -/
theorem extractPackets_cons (p rest : List Nat) (hp : 10 ∉ p) :
    extractPackets (p ++ 10 :: rest) =
      ((p ++ [10]) :: (extractPackets rest).1, (extractPackets rest).2) := by
  have hfind := findDelimiterIndex_append p rest hp
  conv_lhs => rw [extractPackets.eq_def]
  split
  · next n heq =>
    exfalso
    rw [hfind] at heq
    have h1 : (p.length : Int) < 0 := by rw [heq]; exact Int.negSucc_lt_zero n
    omega
  · next i heq =>
    rw [hfind] at heq
    have h2 : Int.ofNat i = (i : Int) := rfl
    rw [h2] at heq
    have hi : i = p.length := by omega
    subst hi
    have htake : (p ++ 10 :: rest).take (p.length + 1) = p ++ [10] := by
      rw [List.take_append_eq_append_take]
      simp
    have hdrop : (p ++ 10 :: rest).drop (p.length + 1) = rest := by
      rw [List.drop_append_eq_append_drop]
      simp
    simp only [htake, hdrop]

theorem delimFree_iff (xs : List Nat) : delimFree xs = true ↔ 10 ∉ xs := by
  constructor
  · intro h hmem
    have := List.all_eq_true.mp h 10 hmem
    simp at this
  · intro h
    refine List.all_eq_true.mpr ?_
    intro b hb
    have hbne : b ≠ 10 := by
      intro hc
      exact h (hc ▸ hb)
    simp [hbne]

/-- Every feed result partitions the input: the yielded frames concatenated
with the remainder give back the buffer, every frame is a delimiter-free body
plus its delimiter, and the remainder is delimiter-free. -/
theorem extractPackets_shape (data : List Nat) :
    (extractPackets data).1.join ++ (extractPackets data).2 = data ∧
    (extractPackets data).1.all packetShape = true ∧
    delimFree (extractPackets data).2 = true := by
  generalize hn : data.length = n
  induction n using Nat.strong_induction_on generalizing data with
  | _ n ih =>
    rcases findDelimiterIndex_nonneg_or data with hneg | hpos
    · have hfree : 10 ∉ data := (findDelimiterIndex_eq_neg_iff data).mp hneg
      rw [extractPackets_of_free data hfree]
      exact ⟨rfl, rfl, (delimFree_iff data).mpr hfree⟩
    · obtain ⟨i, hi⟩ : ∃ i : Nat, findDelimiterIndex data = (i : Int) :=
        ⟨(findDelimiterIndex data).toNat, by omega⟩
      obtain ⟨p, rest, hsplit, hfree, hlen⟩ := findDelimiterIndex_decomp data i hi
      subst hsplit
      have hlt : rest.length < n := by
        simp only [List.length_append, List.length_cons] at hn
        omega
      obtain ⟨ih1, ih2, ih3⟩ := ih rest.length hlt rest rfl
      rw [extractPackets_cons p rest hfree]
      refine ⟨?_, ?_, ih3⟩
      · simp only [List.join_cons, List.append_assoc, ih1]
        simp
      · simp only [List.all_cons, ih2, Bool.and_true]
        simp only [packetShape, List.getLast?_concat, List.dropLast_concat]
        simp [delimFree_iff, hfree]

/-- Streaming composition: extracting from `xs ++ ys` first extracts all of
`xs`'s complete frames, then continues on the leftover of `xs` joined with
`ys`. -/
theorem extractPackets_append (xs ys : List Nat) :
    extractPackets (xs ++ ys) =
      ((extractPackets xs).1 ++ (extractPackets ((extractPackets xs).2 ++ ys)).1,
        (extractPackets ((extractPackets xs).2 ++ ys)).2) := by
  generalize hn : xs.length = n
  induction n using Nat.strong_induction_on generalizing xs ys with
  | _ n ih =>
    rcases findDelimiterIndex_nonneg_or xs with hneg | hpos
    · have hfree : 10 ∉ xs := (findDelimiterIndex_eq_neg_iff xs).mp hneg
      rw [extractPackets_of_free xs hfree]
      simp
    · obtain ⟨i, hi⟩ : ∃ i : Nat, findDelimiterIndex xs = (i : Int) :=
        ⟨(findDelimiterIndex xs).toNat, by omega⟩
      obtain ⟨p, rest, hsplit, hfree, hlen⟩ := findDelimiterIndex_decomp xs i hi
      subst hsplit
      have hlt : rest.length < n := by
        simp only [List.length_append, List.length_cons] at hn
        omega
      have hstep : (p ++ 10 :: rest) ++ ys = p ++ 10 :: (rest ++ ys) := by simp
      rw [hstep, extractPackets_cons p (rest ++ ys) hfree,
        extractPackets_cons p rest hfree, ih rest.length hlt rest ys rfl]
      simp

/-- A full wire image extracts to exactly its frames (delimiters included)
with an empty leftover. -/
theorem extractPackets_wire (Ps : List (List Nat)) (h : ∀ p ∈ Ps, 10 ∉ p) :
    extractPackets (wireOf Ps) = (Ps.map (fun p => p ++ [10]), []) := by
  induction Ps with
  | nil =>
    rw [show wireOf [] = [] from rfl, extractPackets_of_free [] (by simp)]
    rfl
  | cons p ps ih =>
    have hp : 10 ∉ p := h p (List.mem_cons_self p ps)
    have hps : ∀ q ∈ ps, 10 ∉ q := fun q hq => h q (List.mem_cons_of_mem p hq)
    have hw : wireOf (p :: ps) = p ++ 10 :: wireOf ps := by
      simp [wireOf]
    rw [hw, extractPackets_cons p (wireOf ps) hp, ih hps]
    simp

/-- Feeding chunk by chunk equals extracting from the whole concatenation. -/
theorem feedAll_eq (buf : List Nat) (chunks : List (List Nat))
    (hne : chunks ≠ []) :
    feedAll buf chunks = extractPackets (buf ++ chunks.join) := by
  induction chunks generalizing buf with
  | nil => exact absurd rfl hne
  | cons c cs ih =>
    by_cases hcs : cs = []
    · subst hcs
      simp [feedAll, feed, concatUint8Arrays]
    · have h1 := ih (feed buf c).2 hcs
      have h2 := extractPackets_append (buf ++ c) cs.join
      simp only [feedAll, feed, concatUint8Arrays] at h1 ⊢
      have hj : (c :: cs).join = c ++ cs.join := rfl
      rw [hj, show buf ++ (c ++ cs.join) = (buf ++ c) ++ cs.join by simp, h2, h1]

/-! ## Registry and handler lemmas -/

theorem lookupField_regSet (reg : List (String × Json)) (key k : String) (v : Json) :
    lookupField (regSet reg key v) k = if k = key then some v else lookupField reg k := by
  induction reg with
  | nil =>
    by_cases hk : k = key
    · simp [regSet, lookupField, hk]
    · have hk2 : ¬(key = k) := fun hc => hk hc.symm
      simp [regSet, lookupField, hk, hk2]
  | cons kv rest ih =>
    obtain ⟨k1, v1⟩ := kv
    by_cases h1 : k1 = key
    · by_cases hk : k = key
      · simp [regSet, lookupField, h1, hk]
      · have hk2 : ¬(key = k) := fun hc => hk hc.symm
        simp [regSet, lookupField, h1, hk, hk2]
    · by_cases hk1k : k1 = k
      · have hkey : ¬(k = key) := fun hc => h1 (hk1k.trans hc)
        simp [regSet, lookupField, h1, hk1k, hkey]
      · simp [regSet, lookupField, h1, hk1k, ih]

/-- The `UPDATE_CLIENT_DATA` branch always performs the final verbatim
assignment `this.data[clientId] = data` when `data` is an object. -/
theorem handleUpdate_registry (seed : String) (ok : Nat → Bool) (id : Int)
    (reg : List (String × Json)) (dis : Bool)
    (fs d : List (String × Json)) (hData : lookupField fs "data" = some (.obj d)) :
    (handleUpdate seed ok ⟨id, reg, dis⟩ fs).1.registry =
      regSet reg (jsPropKey (lookupField fs "clientId")) (.obj d) := by
  cases hc1 : truthyStored (lookupField reg (jsPropKey (lookupField fs "clientId"))) <;>
    cases hc2 : strictEqNum (lookupField d "fileNum") 255 <;>
      cases hc3 : strictEqStr (lookupField d "seed") seed <;>
        simp [handleUpdate, hData, jsGetField, hc1, hc2, hc3, sendPair, sendPacket,
          apply_ite ClientState.registry]

/-- The connection id field is never written by the update branch. -/
theorem handleUpdate_id (seed : String) (ok : Nat → Bool) (st : ClientState)
    (fs : List (String × Json)) :
    (handleUpdate seed ok st fs).1.id = st.id := by
  cases hd : lookupField fs "data" with
  | none => simp [handleUpdate, hd]
  | some d =>
    cases d with
    | null => simp [handleUpdate, hd]
    | bool b =>
      cases hc1 : truthyStored (lookupField st.registry (jsPropKey (lookupField fs "clientId"))) <;>
        simp [handleUpdate, hd, jsGetField, hc1, strictEqNum, strictEqStr, sendPair,
          sendPacket, apply_ite ClientState.id]
    | num n =>
      cases hc1 : truthyStored (lookupField st.registry (jsPropKey (lookupField fs "clientId"))) <;>
        simp [handleUpdate, hd, jsGetField, hc1, strictEqNum, strictEqStr, sendPair,
          sendPacket, apply_ite ClientState.id]
    | str s =>
      cases hc1 : truthyStored (lookupField st.registry (jsPropKey (lookupField fs "clientId"))) <;>
        simp [handleUpdate, hd, jsGetField, hc1, strictEqNum, strictEqStr, sendPair,
          sendPacket, apply_ite ClientState.id]
    | arr xs =>
      cases hc1 : truthyStored (lookupField st.registry (jsPropKey (lookupField fs "clientId"))) <;>
        simp [handleUpdate, hd, jsGetField, hc1, strictEqNum, strictEqStr, sendPair,
          sendPacket, apply_ite ClientState.id]
    | obj d =>
      cases hc1 : truthyStored (lookupField st.registry (jsPropKey (lookupField fs "clientId"))) <;>
        cases hc2 : strictEqNum (lookupField d "fileNum") 255 <;>
          cases hc3 : strictEqStr (lookupField d "seed") seed <;>
            simp [handleUpdate, hd, jsGetField, hc1, hc2, hc3, sendPair, sendPacket,
              apply_ite ClientState.id]

/-- The emissions of the update branch: which corrective pair (if any) is
sent, as a function of the stored snapshot's truthiness and the `fileNum` and
`seed` comparisons.  The result does not depend on the send oracle. -/
theorem handleUpdate_emissions (seed : String) (ok : Nat → Bool) (id : Int)
    (reg : List (String × Json)) (dis : Bool)
    (fs d : List (String × Json)) (hData : lookupField fs "data" = some (.obj d)) :
    (handleUpdate seed ok ⟨id, reg, dis⟩ fs).2 =
      (if !truthyStored (lookupField reg (jsPropKey (lookupField fs "clientId"))) then
        (if !strictEqNum (lookupField d "fileNum") 255 then
          [OutPacket.serverMessage "Can't connect with save loaded, resetting"
            (lookupField fs "clientId"),
           OutPacket.reset (lookupField fs "clientId")]
         else [])
       else
        (if !strictEqNum (lookupField d "fileNum") 255 &&
            !strictEqStr (lookupField d "seed") seed then
          [OutPacket.serverMessage "Wrong seed loaded, resetting"
            (lookupField fs "clientId"),
           OutPacket.reset (lookupField fs "clientId")]
         else [])) := by
  cases hc1 : truthyStored (lookupField reg (jsPropKey (lookupField fs "clientId"))) <;>
    cases hc2 : strictEqNum (lookupField d "fileNum") 255 <;>
      cases hc3 : strictEqStr (lookupField d "seed") seed <;>
        simp [handleUpdate, hData, jsGetField, hc1, hc2, hc3, sendPair, sendPacket]

/-- Entries never add registry keys: a key absent before `processClients`
stays absent. -/
theorem processClients_preserves_none (entries : List Json)
    (reg : List (String × Json)) (k : String) (h : lookupField reg k = none) :
    lookupField (processClients reg entries) k = none := by
  induction entries generalizing reg with
  | nil => simpa [processClients] using h
  | cons e rest ih =>
    by_cases hnull : e.isNull
    · simpa [processClients, hnull] using h
    · simp only [processClients, hnull, Bool.false_eq_true, if_false]
      by_cases htr : truthyStored (lookupField reg (jsPropKey (entryClientId e))) = true
      · have hne : ¬(k = jsPropKey (entryClientId e)) := by
          intro hc
          rw [← hc] at htr
          rw [h] at htr
          simp [truthyStored] at htr
        have h2 : lookupField
            (regSet reg (jsPropKey (entryClientId e)) (.obj (entryRest e))) k = none := by
          rw [lookupField_regSet]
          simp [hne, h]
        simp only [htr, if_true]
        exact ih _ h2
      · simp only [htr, if_false]
        exact ih _ h

/-- A single non-null entry: overwrite with the rest object when the stored
snapshot is truthy, otherwise leave the registry untouched. -/
theorem processClients_single (reg : List (String × Json))
    (e : List (String × Json)) :
    processClients reg [Json.obj e] =
      (if truthyStored (lookupField reg (jsPropKey (lookupField e "clientId"))) then
        regSet reg (jsPropKey (lookupField e "clientId")) (.obj (stripField e "clientId"))
       else reg) := by
  by_cases htr : truthyStored (lookupField reg (jsPropKey (lookupField e "clientId"))) = true <;>
    simp [processClients, Json.isNull, entryClientId, entryRest, htr]

/-- Whatever the packet, the update branch's emissions are oracle-independent
and either empty or exactly a SERVER_MESSAGE followed by a RESET to the same
target. -/
theorem handleUpdate_shape (seed : String) (ok ok2 : Nat → Bool) (st : ClientState)
    (fs : List (String × Json)) :
    (handleUpdate seed ok st fs).2 = (handleUpdate seed ok2 st fs).2 ∧
    ((handleUpdate seed ok st fs).2 = [] ∨
      ∃ m t, (handleUpdate seed ok st fs).2
        = [OutPacket.serverMessage m t, OutPacket.reset t]) := by
  simp only [handleUpdate]
  split
  · exact ⟨rfl, Or.inl rfl⟩
  · exact ⟨rfl, Or.inl rfl⟩
  · next x d hne heq =>
    cases hc1 : truthyStored (lookupField st.registry (jsPropKey (lookupField fs "clientId")))
    · cases hc2 : strictEqNum (jsGetField d "fileNum") 255
      · refine ⟨?_, Or.inr ⟨"Can't connect with save loaded, resetting",
          lookupField fs "clientId", ?_⟩⟩ <;> simp [hc1, hc2, sendPair, sendPacket]
      · refine ⟨?_, Or.inl ?_⟩ <;> simp [hc1, hc2]
    · cases hc2 : strictEqNum (jsGetField d "fileNum") 255
      · cases hc3 : strictEqStr (jsGetField d "seed") seed
        · refine ⟨?_, Or.inr ⟨"Wrong seed loaded, resetting",
            lookupField fs "clientId", ?_⟩⟩ <;> simp [hc1, hc2, hc3, sendPair, sendPacket]
        · refine ⟨?_, Or.inl ?_⟩ <;> simp [hc1, hc2, hc3]
      · refine ⟨?_, Or.inl ?_⟩ <;> simp [hc1, hc2]

/-! ## Claims -/

/-- C4 (corrected; counterexample): feeding `[65, 10]` yields the single
frame `[65, 10]` — the delimiter byte IS contained in the yielded slice
(`data.subarray(0, delimiterIndex + 1)`), contrary to the claim that the
yielded payload excludes it. -/
theorem feed_yield_counterexample :
    (feed [] [65, 10]).1 = [[65, 10]] ∧
    ((feed [] [65, 10]).1.all (fun p => delimFree p)) = false := by
  have h := extractPackets_wire [[65]] (by decide)
  have h2 : feed [] [65, 10] = ([[65, 10]], []) := by
    show extractPackets (concatUint8Arrays [] [65, 10]) = ([[65, 10]], [])
    rw [show concatUint8Arrays [] [65, 10] = wireOf [[65]] from rfl, h]
    decide
  rw [h2]
  exact ⟨rfl, by decide⟩

/-- C4 (amended): the frame decoder appends the incoming bytes to its buffer
and, for each occurrence of the delimiter byte `0x0A`, yields the slice from
the buffer start up to and INCLUDING the delimiter, then advances the buffer
start past it; the yielded frames concatenated with the final buffer
reconstruct the input, every yielded frame is a delimiter-free body followed
by the delimiter byte, and the delimiter-free remainder stays buffered. -/
theorem feed_characterization (buf chunk : List Nat) :
    (feed buf chunk).1.join ++ (feed buf chunk).2 = buf ++ chunk ∧
    (feed buf chunk).1.all packetShape = true ∧
    delimFree (feed buf chunk).2 = true :=
  extractPackets_shape (buf ++ chunk)

/-- C3 (corrected; counterexample): the wire image of the single payload
`[65]` is `[65, 10]`; feeding it yields the frame `[65, 10]`, not the decoded
payload sequence `[[65]]` the claim requires. -/
theorem framing_roundtrip_counterexample :
    (feedAll [] [[65, 10]]).1 = [[65, 10]] ∧
    [[65, 10]] ≠ ([[65]] : List (List Nat)) := by
  have h1 : feedAll [] [[65, 10]] = extractPackets ([] ++ [[65, 10]].join) :=
    feedAll_eq [] [[65, 10]] (by simp)
  have h2 : ([] : List Nat) ++ [[65, 10]].join = wireOf [[65]] := rfl
  rw [h2, extractPackets_wire [[65]] (by decide)] at h1
  exact ⟨by rw [h1]; decide, by decide⟩

/-- C3 (amended): feeding the concatenation of delimiter-free payloads each
followed by one delimiter — in one chunk or split at arbitrary boundaries —
yields exactly the frames `Pᵢ ++ [0x0A]` (each payload WITH its trailing
delimiter) in order and leaves an empty buffer; feeding a delimiter-free
payload without its delimiter yields nothing, and a subsequent feed of the
delimiter yields exactly one frame equal to the concatenation of the two
feeds. -/
theorem framing_roundtrip (Ps : List (List Nat)) (chunks : List (List Nat))
    (P : List Nat)
    (hPs : Ps.all delimFree = true) (hne : chunks ≠ [])
    (hjoin : chunks.join = wireOf Ps) (hP : delimFree P = true) :
    (feedAll [] chunks).1 = Ps.map (fun p => p ++ [10]) ∧
    (feedAll [] chunks).2 = [] ∧
    feed [] P = ([], P) ∧
    feed P [10] = ([P ++ [10]], []) := by
  have hPs2 : ∀ p ∈ Ps, 10 ∉ p := by
    intro p hp
    exact (delimFree_iff p).mp (List.all_eq_true.mp hPs p hp)
  have hP2 : 10 ∉ P := (delimFree_iff P).mp hP
  have h1 : feedAll [] chunks = extractPackets ([] ++ chunks.join) :=
    feedAll_eq [] chunks hne
  rw [hjoin] at h1
  simp only [List.nil_append] at h1
  rw [extractPackets_wire Ps hPs2] at h1
  refine ⟨by rw [h1], by rw [h1], ?_, ?_⟩
  · show extractPackets ([] ++ P) = ([], P)
    simp only [List.nil_append]
    exact extractPackets_of_free P hP2
  · show extractPackets (P ++ [10]) = ([P ++ [10]], [])
    rw [show (P ++ [10] : List Nat) = P ++ 10 :: [] from rfl,
      extractPackets_cons P [] hP2, extractPackets_of_free [] (by simp)]

theorem framing_roundtrip_witness :
    (feedAll [] [[65, 10, 66], [67, 10]]).1
      = ([[65], [66, 67]] : List (List Nat)).map (fun p => p ++ [10]) ∧
    (feedAll [] [[65, 10, 66], [67, 10]]).2 = [] ∧
    feed [] [72] = ([], [72]) ∧
    feed [72] [10] = ([[72] ++ [10]], []) :=
  framing_roundtrip [[65], [66, 67]] [[65, 10, 66], [67, 10]] [72]
    (by decide) (by decide) (by decide) (by decide)

/-- C5: a payload that is not well-formed JSON (`JSON.parse` throws), or whose
parse result lacks a recognized `type` discriminant, is dropped: the
participant registry, the connection id and the disconnection state are all
unchanged (no disconnect, the read loop continues) and nothing is sent.  The
drop is the `DecodeError` recovery the spec describes. -/
theorem decode_robustness (seed : String) (ok : Nat → Bool) (id : Int)
    (reg : List (String × Json)) (dis : Bool) (parsed : Option Json)
    (h : parsed = none ∨ ∃ j, parsed = some j ∧ hasRecognizedType j = false) :
    handlePacket seed ok ⟨id, reg, dis⟩ parsed = (⟨id, reg, dis⟩, []) := by
  rcases h with h | ⟨j, hj, hrec⟩
  · subst h; rfl
  · subst hj
    cases j with
    | null => rfl
    | bool b => rfl
    | num n => rfl
    | str s => rfl
    | arr xs => rfl
    | obj fs =>
      simp only [hasRecognizedType] at hrec
      simp only [handlePacket]
      split
      · next heq =>
        rw [heq] at hrec
        exact absurd hrec (by decide)
      · next heq =>
        rw [heq] at hrec
        exact absurd hrec (by decide)
      · rfl

theorem decode_robustness_witness :
    handlePacket "S" (fun _ => true) ⟨1, [("7", Json.num 3)], false⟩
        (some (.obj [("type", Json.str "BANANA")]))
      = (⟨1, [("7", Json.num 3)], false⟩, []) :=
  decode_robustness "S" (fun _ => true) 1 [("7", Json.num 3)] false
    (some (.obj [("type", Json.str "BANANA")]))
    (Or.inr ⟨.obj [("type", Json.str "BANANA")], rfl, by decide⟩)

/-- C1 (corrected; counterexample): the registry HOLDS key "7" (stored value
`0`, falsy), the incoming data has `fileNum = 1 ≠ 255` and a seed differing
from the configured `"S"`; the claim demands the "Wrong seed loaded,
resetting" pair for a present participant, but the code classifies by
truthiness and sends "Can't connect with save loaded, resetting" instead. -/
theorem updateClientData_truthiness_counterexample :
    lookupField [("7", Json.num 0)] "7" = some (Json.num 0) ∧
    (handlePacket "S" (fun _ => true) ⟨1, [("7", Json.num 0)], false⟩
        (some (.obj [("type", Json.str "UPDATE_CLIENT_DATA"), ("clientId", Json.num 7),
          ("data", Json.obj [("fileNum", Json.num 1), ("seed", Json.str "T")])]))).2
      = [OutPacket.serverMessage "Can't connect with save loaded, resetting"
          (some (Json.num 7)),
         OutPacket.reset (some (Json.num 7))] ∧
    "Can't connect with save loaded, resetting" ≠ "Wrong seed loaded, resetting" :=
  ⟨rfl, rfl, by decide⟩

/-- C1 (amended): for an UPDATE_CLIENT_DATA packet with object `data`, the
handler classifies the participant by the TRUTHINESS of the stored snapshot
(absent or falsy ⇒ "new"): a falsy/absent snapshot with `fileNum !== 255`
emits the "Can't connect with save loaded, resetting" SERVER_MESSAGE then the
RESET, both addressed to the packet's clientId; a truthy snapshot with
`fileNum !== 255` and `seed !== configuredSeed` emits the same pair with
"Wrong seed loaded, resetting"; in every such case the registry entry is then
replaced wholesale by the packet's `data` (no field merge). -/
theorem updateClientData_reconciliation (seed : String) (ok : Nat → Bool)
    (id : Int) (reg : List (String × Json)) (dis : Bool)
    (fs d : List (String × Json))
    (hType : lookupField fs "type" = some (.str "UPDATE_CLIENT_DATA"))
    (hData : lookupField fs "data" = some (.obj d)) :
    (handlePacket seed ok ⟨id, reg, dis⟩ (some (.obj fs))).1.registry
      = regSet reg (jsPropKey (lookupField fs "clientId")) (.obj d) ∧
    (handlePacket seed ok ⟨id, reg, dis⟩ (some (.obj fs))).2
      = (if !truthyStored (lookupField reg (jsPropKey (lookupField fs "clientId"))) then
          (if !strictEqNum (lookupField d "fileNum") 255 then
            [OutPacket.serverMessage "Can't connect with save loaded, resetting"
              (lookupField fs "clientId"),
             OutPacket.reset (lookupField fs "clientId")]
           else [])
         else
          (if !strictEqNum (lookupField d "fileNum") 255 &&
              !strictEqStr (lookupField d "seed") seed then
            [OutPacket.serverMessage "Wrong seed loaded, resetting"
              (lookupField fs "clientId"),
             OutPacket.reset (lookupField fs "clientId")]
           else [])) := by
  have hh : handlePacket seed ok ⟨id, reg, dis⟩ (some (.obj fs))
      = handleUpdate seed ok ⟨id, reg, dis⟩ fs := by
    simp only [handlePacket]
    rw [hType]
    rfl
  rw [hh]
  exact ⟨handleUpdate_registry seed ok id reg dis fs d hData,
    handleUpdate_emissions seed ok id reg dis fs d hData⟩

theorem updateClientData_reconciliation_witness :
    (handlePacket "S" (fun _ => true) ⟨1, [], false⟩
        (some (.obj [("type", Json.str "UPDATE_CLIENT_DATA"), ("clientId", Json.num 7),
          ("data", Json.obj [("fileNum", Json.num 3), ("seed", Json.str "X")])]))).1.registry
      = [("7", Json.obj [("fileNum", Json.num 3), ("seed", Json.str "X")])] ∧
    (handlePacket "S" (fun _ => true) ⟨1, [], false⟩
        (some (.obj [("type", Json.str "UPDATE_CLIENT_DATA"), ("clientId", Json.num 7),
          ("data", Json.obj [("fileNum", Json.num 3), ("seed", Json.str "X")])]))).2
      = [OutPacket.serverMessage "Can't connect with save loaded, resetting"
          (some (Json.num 7)),
         OutPacket.reset (some (Json.num 7))] := by
  have h := updateClientData_reconciliation "S" (fun _ => true) 1 [] false
    [("type", Json.str "UPDATE_CLIENT_DATA"), ("clientId", Json.num 7),
      ("data", Json.obj [("fileNum", Json.num 3), ("seed", Json.str "X")])]
    [("fileNum", Json.num 3), ("seed", Json.str "X")] rfl rfl
  exact ⟨by rw [h.1]; rfl, by rw [h.2]; rfl⟩

/-- C2 (corrected; counterexample): on connection id 1, an inbound
UPDATE_CLIENT_DATA whose wire payload carries `clientId: 42` is stored under
the registry key "42" derived from the payload — the decoded packet's
clientId is NOT overwritten with the connection identifier. -/
theorem clientId_from_payload_counterexample :
    (handlePacket "S" (fun _ => true) ⟨1, [], false⟩
        (some (.obj [("type", Json.str "UPDATE_CLIENT_DATA"), ("clientId", Json.num 42),
          ("data", Json.obj [("fileNum", Json.num 255)])]))).1.registry
      = [("42", Json.obj [("fileNum", Json.num 255)])] ∧
    ("42" : String) ≠ "1" :=
  ⟨rfl, by decide⟩

/-- C2 (amended): the receiving endpoint never rewrites `clientId`: the
registry key used for an UPDATE_CLIENT_DATA packet is derived from the
payload's own `clientId` value, and both the resulting registry and the
emissions are independent of the connection identifier. -/
theorem clientId_from_payload (seed : String) (ok : Nat → Bool) (id id2 : Int)
    (reg : List (String × Json)) (dis : Bool) (fs d : List (String × Json))
    (hType : lookupField fs "type" = some (.str "UPDATE_CLIENT_DATA"))
    (hData : lookupField fs "data" = some (.obj d)) :
    (handlePacket seed ok ⟨id, reg, dis⟩ (some (.obj fs))).1.registry
      = regSet reg (jsPropKey (lookupField fs "clientId")) (.obj d) ∧
    (handlePacket seed ok ⟨id, reg, dis⟩ (some (.obj fs))).1.registry
      = (handlePacket seed ok ⟨id2, reg, dis⟩ (some (.obj fs))).1.registry ∧
    (handlePacket seed ok ⟨id, reg, dis⟩ (some (.obj fs))).2
      = (handlePacket seed ok ⟨id2, reg, dis⟩ (some (.obj fs))).2 := by
  have hh1 : handlePacket seed ok ⟨id, reg, dis⟩ (some (.obj fs))
      = handleUpdate seed ok ⟨id, reg, dis⟩ fs := by
    simp only [handlePacket]
    rw [hType]
    rfl
  have hh2 : handlePacket seed ok ⟨id2, reg, dis⟩ (some (.obj fs))
      = handleUpdate seed ok ⟨id2, reg, dis⟩ fs := by
    simp only [handlePacket]
    rw [hType]
    rfl
  rw [hh1, hh2]
  refine ⟨handleUpdate_registry seed ok id reg dis fs d hData, ?_, ?_⟩
  · rw [handleUpdate_registry seed ok id reg dis fs d hData,
      handleUpdate_registry seed ok id2 reg dis fs d hData]
  · rw [handleUpdate_emissions seed ok id reg dis fs d hData,
      handleUpdate_emissions seed ok id2 reg dis fs d hData]

theorem clientId_from_payload_witness :
    (handlePacket "S" (fun _ => true) ⟨1, [], false⟩
        (some (.obj [("type", Json.str "UPDATE_CLIENT_DATA"), ("clientId", Json.num 42),
          ("data", Json.obj [("fileNum", Json.num 255)])]))).1.registry
      = regSet [] (jsPropKey (lookupField
          [("type", Json.str "UPDATE_CLIENT_DATA"), ("clientId", Json.num 42),
            ("data", Json.obj [("fileNum", Json.num 255)])] "clientId"))
          (.obj [("fileNum", Json.num 255)]) ∧
    (handlePacket "S" (fun _ => true) ⟨1, [], false⟩
        (some (.obj [("type", Json.str "UPDATE_CLIENT_DATA"), ("clientId", Json.num 42),
          ("data", Json.obj [("fileNum", Json.num 255)])]))).1.registry
      = (handlePacket "S" (fun _ => true) ⟨99, [], false⟩
          (some (.obj [("type", Json.str "UPDATE_CLIENT_DATA"), ("clientId", Json.num 42),
            ("data", Json.obj [("fileNum", Json.num 255)])]))).1.registry ∧
    (handlePacket "S" (fun _ => true) ⟨1, [], false⟩
        (some (.obj [("type", Json.str "UPDATE_CLIENT_DATA"), ("clientId", Json.num 42),
          ("data", Json.obj [("fileNum", Json.num 255)])]))).2
      = (handlePacket "S" (fun _ => true) ⟨99, [], false⟩
          (some (.obj [("type", Json.str "UPDATE_CLIENT_DATA"), ("clientId", Json.num 42),
            ("data", Json.obj [("fileNum", Json.num 255)])]))).2 :=
  clientId_from_payload "S" (fun _ => true) 1 99 [] false _ _ rfl rfl

/-- C6 (corrected; counterexample): key "7" IS present in the registry (its
stored snapshot is the falsy value `0`, reachable because UPDATE_CLIENT_DATA
stores `data` verbatim), and an ALL_CLIENT_DATA entry for clientId 7 arrives;
the claim demands the snapshot be overwritten with `{x: 1}`, but the code
tests truthiness (`if (this.data[clientId])`) and leaves the registry
untouched. -/
theorem allClientData_falsy_counterexample :
    lookupField [("7", Json.num 0)] "7" = some (Json.num 0) ∧
    (handlePacket "S" (fun _ => true) ⟨1, [("7", Json.num 0)], false⟩
        (some (.obj [("type", Json.str "ALL_CLIENT_DATA"),
          ("clients", Json.arr [Json.obj [("clientId", Json.num 7),
            ("x", Json.num 1)]])]))).1.registry
      = [("7", Json.num 0)] ∧
    Json.num 0 ≠ Json.obj [("x", Json.num 1)] :=
  ⟨rfl, rfl, fun hc => Json.noConfusion hc⟩

/-- C6 (amended): an ALL_CLIENT_DATA entry overwrites a registry snapshot
exactly when the stored value under its clientId's key is TRUTHY (absent or
falsy snapshots are silently ignored), the overwrite stores the entry minus
its `clientId` field, and processing ALL_CLIENT_DATA never adds a key to the
registry. -/
theorem allClientData_merge (seed : String) (ok : Nat → Bool) (id : Int)
    (reg : List (String × Json)) (dis : Bool) (fs : List (String × Json))
    (entries : List Json) (k : String) (e : List (String × Json))
    (hType : lookupField fs "type" = some (.str "ALL_CLIENT_DATA"))
    (hClients : lookupField fs "clients" = some (.arr entries))
    (hAbsent : lookupField reg k = none) :
    lookupField (handlePacket seed ok ⟨id, reg, dis⟩ (some (.obj fs))).1.registry k
      = none ∧
    processClients reg [Json.obj e]
      = (if truthyStored (lookupField reg (jsPropKey (lookupField e "clientId"))) then
          regSet reg (jsPropKey (lookupField e "clientId"))
            (.obj (stripField e "clientId"))
         else reg) := by
  constructor
  · have hh : handlePacket seed ok ⟨id, reg, dis⟩ (some (.obj fs))
        = handleAll ⟨id, reg, dis⟩ fs := by
      simp only [handlePacket]
      rw [hType]
      rfl
    have hh2 : handleAll (⟨id, reg, dis⟩ : ClientState) fs
        = (⟨id, processClients reg entries, dis⟩, []) := by
      simp only [handleAll]
      rw [hClients]
    rw [hh, hh2]
    exact processClients_preserves_none entries reg k hAbsent
  · exact processClients_single reg e

theorem allClientData_merge_witness :
    lookupField (handlePacket "S" (fun _ => true)
        ⟨1, [("7", Json.obj [("a", Json.num 1)])], false⟩
        (some (.obj [("type", Json.str "ALL_CLIENT_DATA"),
          ("clients", Json.arr [Json.obj [("clientId", Json.num 7), ("x", Json.num 1)],
            Json.obj [("clientId", Json.num 9), ("x", Json.num 2)]])]))).1.registry "9"
      = none ∧
    processClients [("7", Json.obj [("a", Json.num 1)])]
        [Json.obj [("clientId", Json.num 7), ("x", Json.num 1)]]
      = (if truthyStored (lookupField [("7", Json.obj [("a", Json.num 1)])]
            (jsPropKey (lookupField [("clientId", Json.num 7), ("x", Json.num 1)]
              "clientId"))) then
          regSet [("7", Json.obj [("a", Json.num 1)])]
            (jsPropKey (lookupField [("clientId", Json.num 7), ("x", Json.num 1)]
              "clientId"))
            (.obj (stripField [("clientId", Json.num 7), ("x", Json.num 1)] "clientId"))
         else [("7", Json.obj [("a", Json.num 1)])]) :=
  allClientData_merge "S" (fun _ => true) 1 [("7", Json.obj [("a", Json.num 1)])] false
    [("type", Json.str "ALL_CLIENT_DATA"),
      ("clients", Json.arr [Json.obj [("clientId", Json.num 7), ("x", Json.num 1)],
        Json.obj [("clientId", Json.num 9), ("x", Json.num 2)]])]
    [Json.obj [("clientId", Json.num 7), ("x", Json.num 1)],
      Json.obj [("clientId", Json.num 9), ("x", Json.num 2)]]
    "9" [("clientId", Json.num 7), ("x", Json.num 1)] rfl rfl rfl

/-- C7 (code bug): with configured seed "S", a registry whose key "7" is
PRESENT but holds the falsy snapshot `0` — reachable, as the first conjunct
shows, because UPDATE_CLIENT_DATA stores `data` verbatim — an update for
participant 7 with `fileNum = 1` and the MATCHING seed "S" is misclassified
as a new participant (`!this.data[k]` tests truthiness of the stored value,
not key presence) and the "Can't connect with save loaded, resetting"
SERVER_MESSAGE/RESET pair is emitted; under the spec's key-presence
semantics the participant is existing and, with the seed matching, nothing
would be sent. -/
theorem newParticipant_truthiness_bug :
    (handlePacket "S" (fun _ => true) ⟨1, [], false⟩
        (some (.obj [("type", Json.str "UPDATE_CLIENT_DATA"), ("clientId", Json.num 7),
          ("data", Json.num 0)]))).1.registry = [("7", Json.num 0)] ∧
    lookupField [("7", Json.num 0)] "7" = some (Json.num 0) ∧
    (handlePacket "S" (fun _ => true) ⟨1, [("7", Json.num 0)], false⟩
        (some (.obj [("type", Json.str "UPDATE_CLIENT_DATA"), ("clientId", Json.num 7),
          ("data", Json.obj [("fileNum", Json.num 1), ("seed", Json.str "S")])]))).2
      = [OutPacket.serverMessage "Can't connect with save loaded, resetting"
          (some (Json.num 7)),
         OutPacket.reset (some (Json.num 7))] :=
  ⟨rfl, rfl, rfl⟩

/-- C8 (corrected; counterexample): an UPDATE_CLIENT_DATA for a new
participant whose object `data` has NO `fileNum` field: processing does not
fail, but because `undefined !== 255` holds, the code treats the participant
as having a save loaded and emits the corrective pair — the claim says no
pair would be emitted. -/
theorem missing_fileNum_counterexample :
    (handlePacket "S" (fun _ => true) ⟨1, [], false⟩
        (some (.obj [("type", Json.str "UPDATE_CLIENT_DATA"), ("clientId", Json.num 7),
          ("data", Json.obj [])]))).2
      = [OutPacket.serverMessage "Can't connect with save loaded, resetting"
          (some (Json.num 7)),
         OutPacket.reset (some (Json.num 7))] ∧
    [OutPacket.serverMessage "Can't connect with save loaded, resetting"
        (some (Json.num 7)),
      OutPacket.reset (some (Json.num 7))] ≠ ([] : List OutPacket) :=
  ⟨rfl, fun hc => List.noConfusion hc⟩

/-- C8 (amended): reconciliation is total over UPDATE_CLIENT_DATA packets
with object `data`: for EVERY such packet — `fileNum` present or not, stored
snapshot truthy or not — processing never fails and the verbatim registry
write is performed (`fs`/`d` below is an arbitrary such packet).  But a
missing `fileNum` satisfies `fileNum !== 255`, so the participant is treated
as HAVING a save loaded (`fs2`/`d2` below is an arbitrary packet whose
object `data` lacks `fileNum`): a new (falsy/absent snapshot) participant
gets the "Can't connect with save loaded, resetting" pair unconditionally,
and an existing (truthy snapshot) participant gets the "Wrong seed loaded,
resetting" pair exactly when `data.seed !== configuredSeed`; the registry
write still happens. -/
theorem missing_fileNum_behavior (seed : String) (ok : Nat → Bool) (id : Int)
    (reg : List (String × Json)) (dis : Bool)
    (fs d fs2 d2 : List (String × Json))
    (hType : lookupField fs "type" = some (.str "UPDATE_CLIENT_DATA"))
    (hData : lookupField fs "data" = some (.obj d))
    (hType2 : lookupField fs2 "type" = some (.str "UPDATE_CLIENT_DATA"))
    (hData2 : lookupField fs2 "data" = some (.obj d2))
    (hNoFile : lookupField d2 "fileNum" = none) :
    (handlePacket seed ok ⟨id, reg, dis⟩ (some (.obj fs))).1.registry
      = regSet reg (jsPropKey (lookupField fs "clientId")) (.obj d) ∧
    (handlePacket seed ok ⟨id, reg, dis⟩ (some (.obj fs2))).2
      = (if !truthyStored (lookupField reg (jsPropKey (lookupField fs2 "clientId"))) then
          [OutPacket.serverMessage "Can't connect with save loaded, resetting"
            (lookupField fs2 "clientId"),
           OutPacket.reset (lookupField fs2 "clientId")]
         else
          (if !strictEqStr (lookupField d2 "seed") seed then
            [OutPacket.serverMessage "Wrong seed loaded, resetting"
              (lookupField fs2 "clientId"),
             OutPacket.reset (lookupField fs2 "clientId")]
           else [])) ∧
    (handlePacket seed ok ⟨id, reg, dis⟩ (some (.obj fs2))).1.registry
      = regSet reg (jsPropKey (lookupField fs2 "clientId")) (.obj d2) := by
  have hh : handlePacket seed ok ⟨id, reg, dis⟩ (some (.obj fs))
      = handleUpdate seed ok ⟨id, reg, dis⟩ fs := by
    simp only [handlePacket]
    rw [hType]
    rfl
  have hh2 : handlePacket seed ok ⟨id, reg, dis⟩ (some (.obj fs2))
      = handleUpdate seed ok ⟨id, reg, dis⟩ fs2 := by
    simp only [handlePacket]
    rw [hType2]
    rfl
  refine ⟨?_, ?_, ?_⟩
  · rw [hh]
    exact handleUpdate_registry seed ok id reg dis fs d hData
  · rw [hh2, handleUpdate_emissions seed ok id reg dis fs2 d2 hData2, hNoFile]
    cases hc1 : truthyStored (lookupField reg (jsPropKey (lookupField fs2 "clientId"))) <;>
      cases hc3 : strictEqStr (lookupField d2 "seed") seed <;>
        simp [hc1, hc3, strictEqNum]
  · rw [hh2]
    exact handleUpdate_registry seed ok id reg dis fs2 d2 hData2

theorem missing_fileNum_behavior_witness :
    (handlePacket "S" (fun _ => true) ⟨1, [("7", Json.obj [("a", Json.num 1)])], false⟩
        (some (.obj [("type", Json.str "UPDATE_CLIENT_DATA"), ("clientId", Json.num 7),
          ("data", Json.obj [("fileNum", Json.num 255),
            ("seed", Json.str "S")])]))).1.registry
      = regSet [("7", Json.obj [("a", Json.num 1)])]
          (jsPropKey (lookupField [("type", Json.str "UPDATE_CLIENT_DATA"),
            ("clientId", Json.num 7),
            ("data", Json.obj [("fileNum", Json.num 255), ("seed", Json.str "S")])]
            "clientId"))
          (.obj [("fileNum", Json.num 255), ("seed", Json.str "S")]) ∧
    (handlePacket "S" (fun _ => true) ⟨1, [("7", Json.obj [("a", Json.num 1)])], false⟩
        (some (.obj [("type", Json.str "UPDATE_CLIENT_DATA"), ("clientId", Json.num 7),
          ("data", Json.obj [("seed", Json.str "T")])]))).2
      = (if !truthyStored (lookupField [("7", Json.obj [("a", Json.num 1)])]
            (jsPropKey (lookupField [("type", Json.str "UPDATE_CLIENT_DATA"),
              ("clientId", Json.num 7), ("data", Json.obj [("seed", Json.str "T")])]
              "clientId"))) then
          [OutPacket.serverMessage "Can't connect with save loaded, resetting"
            (lookupField [("type", Json.str "UPDATE_CLIENT_DATA"),
              ("clientId", Json.num 7), ("data", Json.obj [("seed", Json.str "T")])]
              "clientId"),
           OutPacket.reset (lookupField [("type", Json.str "UPDATE_CLIENT_DATA"),
              ("clientId", Json.num 7), ("data", Json.obj [("seed", Json.str "T")])]
              "clientId")]
         else
          (if !strictEqStr (lookupField [("seed", Json.str "T")] "seed") "S" then
            [OutPacket.serverMessage "Wrong seed loaded, resetting"
              (lookupField [("type", Json.str "UPDATE_CLIENT_DATA"),
                ("clientId", Json.num 7), ("data", Json.obj [("seed", Json.str "T")])]
                "clientId"),
             OutPacket.reset (lookupField [("type", Json.str "UPDATE_CLIENT_DATA"),
                ("clientId", Json.num 7), ("data", Json.obj [("seed", Json.str "T")])]
                "clientId")]
           else [])) ∧
    (handlePacket "S" (fun _ => true) ⟨1, [("7", Json.obj [("a", Json.num 1)])], false⟩
        (some (.obj [("type", Json.str "UPDATE_CLIENT_DATA"), ("clientId", Json.num 7),
          ("data", Json.obj [("seed", Json.str "T")])]))).1.registry
      = regSet [("7", Json.obj [("a", Json.num 1)])]
          (jsPropKey (lookupField [("type", Json.str "UPDATE_CLIENT_DATA"),
            ("clientId", Json.num 7), ("data", Json.obj [("seed", Json.str "T")])]
            "clientId"))
          (.obj [("seed", Json.str "T")]) :=
  missing_fileNum_behavior "S" (fun _ => true) 1
    [("7", Json.obj [("a", Json.num 1)])] false
    [("type", Json.str "UPDATE_CLIENT_DATA"), ("clientId", Json.num 7),
      ("data", Json.obj [("fileNum", Json.num 255), ("seed", Json.str "S")])]
    [("fileNum", Json.num 255), ("seed", Json.str "S")]
    [("type", Json.str "UPDATE_CLIENT_DATA"), ("clientId", Json.num 7),
      ("data", Json.obj [("seed", Json.str "T")])]
    [("seed", Json.str "T")] rfl rfl rfl rfl rfl

/-- C9: the handler's reactive sends are identical under every send-outcome
oracle — in particular the RESET attempt is not suppressed when the
SERVER_MESSAGE write fails (the source sequences them with `.finally`) — and
whenever anything is emitted it is exactly a SERVER_MESSAGE followed by a
RESET to the same target, in that order. -/
theorem corrective_pair_order (seed : String) (ok ok2 : Nat → Bool)
    (st : ClientState) (parsed : Option Json) :
    (handlePacket seed ok st parsed).2 = (handlePacket seed ok2 st parsed).2 ∧
    ((handlePacket seed ok st parsed).2 = [] ∨
      ∃ m t, (handlePacket seed ok st parsed).2
        = [OutPacket.serverMessage m t, OutPacket.reset t]) := by
  cases parsed with
  | none => exact ⟨rfl, Or.inl rfl⟩
  | some j =>
    cases j with
    | null => exact ⟨rfl, Or.inl rfl⟩
    | bool b => exact ⟨rfl, Or.inl rfl⟩
    | num n => exact ⟨rfl, Or.inl rfl⟩
    | str s => exact ⟨rfl, Or.inl rfl⟩
    | arr xs => exact ⟨rfl, Or.inl rfl⟩
    | obj fs =>
      simp only [handlePacket]
      split
      · exact handleUpdate_shape seed ok ok2 st fs
      · refine ⟨rfl, Or.inl ?_⟩
        simp only [handleAll]
        split <;> rfl
      · exact ⟨rfl, Or.inl rfl⟩

/-- C10: the two registry-mutating operations store snapshots of different
shapes: an ALL_CLIENT_DATA entry applied to a truthy-keyed registry entry
stores the entry with its `clientId` field removed (rest destructuring),
whereas an accepted UPDATE_CLIENT_DATA stores the packet's `data` object
verbatim — including any `clientId` field it happens to contain. -/
theorem snapshot_shapes (seed : String) (ok : Nat → Bool) (id : Int)
    (reg : List (String × Json)) (dis : Bool) (fs d e : List (String × Json))
    (hTruthy : truthyStored (lookupField reg (jsPropKey (lookupField e "clientId")))
      = true)
    (hType : lookupField fs "type" = some (.str "UPDATE_CLIENT_DATA"))
    (hData : lookupField fs "data" = some (.obj d)) :
    processClients reg [Json.obj e]
      = regSet reg (jsPropKey (lookupField e "clientId"))
          (.obj (stripField e "clientId")) ∧
    lookupField (handlePacket seed ok ⟨id, reg, dis⟩ (some (.obj fs))).1.registry
        (jsPropKey (lookupField fs "clientId"))
      = some (.obj d) := by
  constructor
  · rw [processClients_single reg e, hTruthy]
    rfl
  · have hh : handlePacket seed ok ⟨id, reg, dis⟩ (some (.obj fs))
        = handleUpdate seed ok ⟨id, reg, dis⟩ fs := by
      simp only [handlePacket]
      rw [hType]
      rfl
    rw [hh, handleUpdate_registry seed ok id reg dis fs d hData, lookupField_regSet]
    simp

theorem snapshot_shapes_witness :
    processClients [("7", Json.obj [("a", Json.num 1)])]
        [Json.obj [("clientId", Json.num 7), ("x", Json.num 1)]]
      = regSet [("7", Json.obj [("a", Json.num 1)])]
          (jsPropKey (lookupField [("clientId", Json.num 7), ("x", Json.num 1)]
            "clientId"))
          (.obj (stripField [("clientId", Json.num 7), ("x", Json.num 1)] "clientId")) ∧
    lookupField (handlePacket "S" (fun _ => true)
        ⟨1, [("7", Json.obj [("a", Json.num 1)])], false⟩
        (some (.obj [("type", Json.str "UPDATE_CLIENT_DATA"), ("clientId", Json.num 7),
          ("data", Json.obj [("clientId", Json.num 99),
            ("fileNum", Json.num 255)])]))).1.registry
        (jsPropKey (lookupField [("type", Json.str "UPDATE_CLIENT_DATA"),
          ("clientId", Json.num 7),
          ("data", Json.obj [("clientId", Json.num 99), ("fileNum", Json.num 255)])]
          "clientId"))
      = some (.obj [("clientId", Json.num 99), ("fileNum", Json.num 255)]) :=
  snapshot_shapes "S" (fun _ => true) 1 [("7", Json.obj [("a", Json.num 1)])] false
    [("type", Json.str "UPDATE_CLIENT_DATA"), ("clientId", Json.num 7),
      ("data", Json.obj [("clientId", Json.num 99), ("fileNum", Json.num 255)])]
    [("clientId", Json.num 99), ("fileNum", Json.num 255)]
    [("clientId", Json.num 7), ("x", Json.num 1)] rfl rfl rfl
